import Mathlib

/-!
Verification of the operation dispatch and validation layer of the
imaginary image service (`image.go`).

The native engine (bimg) is an external collaborator: it is modelled as a
structure of functions (`Bimg`) supplied to each operation, covering the
three calls the layer makes: `Resize`, `Metadata` and `DetermineImageType`.
Byte buffers are modelled as `String`, Go `int` as `Int`, Go `float32` as
`Rat`.  A Go panic raised by the native call is modelled as the
`ResizeOutcome.abnormal` outcome carrying the recovered value.
-/

/-- A Go `error` value as observed by this layer: either a plain error
(`errors.New` / an engine-provided error) or the repository's structured
`Error` created by `NewError(message, code)`. -/
inductive GoError where
  | message (s : String)
  | api (s : String) (code : Nat)
deriving DecidableEq, Repr

/-- The string returned by the Go `Error()` method of an error value. -/
def GoError.text : GoError → String
  | .message s => s
  | .api s _ => s

/-- Modelled from the spec: the repository's `NewError(message, code)`
constructor (defined outside `image.go`), producing a classified error. -/
def NewError (s : String) (code : Nat) : GoError := .api s code

/-- Modelled from the spec: the `BadRequest` classification code used for
bad-input errors (defined outside `image.go`); its concrete value is
irrelevant to every claim. -/
def BadRequest : Nat := 400

/-- The engine's image-type enumeration (`bimg.ImageType`), with the
`UNKNOWN` sentinel used by Convert's validation.  The spec names `jpeg`,
`png` and `webp` as the recognized output formats. -/
inductive BimgImageType where
  | JPEG
  | PNG
  | WEBP
  | UNKNOWN
deriving DecidableEq, Repr

/-- Modelled from the spec: `ImageType(name)` (defined outside `image.go`),
mapping a requested format name to the engine's type enum, with
`unknownFormat` (`bimg.UNKNOWN`) for unrecognized names. -/
def ImageType (t : String) : BimgImageType :=
  if t = "jpeg" then .JPEG
  else if t = "png" then .PNG
  else if t = "webp" then .WEBP
  else .UNKNOWN

/-- Modelled from the spec: `GetImageMimeType` (defined outside
`image.go`), the pure lookup `mimeTypeFor(type-enum) -> string`. -/
def GetImageMimeType : BimgImageType → String
  | .JPEG => "image/jpeg"
  | .PNG => "image/png"
  | .WEBP => "image/webp"
  | .UNKNOWN => "application/octet-stream"

/-- `Image` stores an image binary buffer and its MIME type
(`image.go`). Buffers are modelled as strings of bytes. -/
structure Image where
  Body : String
  Mime : String
deriving DecidableEq, Repr

/-- The Go zero value `Image\x7b\x7d`: empty body and empty MIME string. -/
def emptyImage : Image := { Body := "", Mime := "" }

/-- An RGB color (`bimg.Color`). -/
structure Color where
  R : Nat
  G : Nat
  B : Nat
deriving DecidableEq, Repr

/-- The engine's watermark sub-structure (`bimg.Watermark`).  The
`Background` field is modelled as an `Option` so that "never assigned"
(Go zero value) is distinguishable from "assigned by the operation". -/
structure WatermarkOptions where
  DPI : Int := 0
  Margin : Int := 0
  Width : Int := 0
  Opacity : Rat := 0
  NoReplicate : Bool := false
  Text : String := ""
  Font : String := ""
  Background : Option Color := none
deriving DecidableEq, Repr

/-- The native engine's parameter structure (`bimg.Options`), holding the
fields this layer sets.  `Typ` models the Go field `Type` (a Lean
keyword). -/
structure EngineOptions where
  Width : Int := 0
  Height : Int := 0
  Top : Int := 0
  Left : Int := 0
  AreaWidth : Int := 0
  AreaHeight : Int := 0
  Quality : Int := 0
  Compression : Int := 0
  Rotate : Int := 0
  Zoom : Rat := 0
  Crop : Bool := false
  Enlarge : Bool := false
  Embed : Bool := false
  Flip : Bool := false
  Flop : Bool := false
  Force : Bool := false
  Extend : String := ""
  Background : String := ""
  Colorspace : String := ""
  Gravity : String := ""
  Typ : BimgImageType := .UNKNOWN
  Watermark : WatermarkOptions := {}
deriving DecidableEq, Repr

/-- Modelled from the spec: the request-scoped `ImageOptions` record
(defined outside `image.go`), holding every parameter any operation might
read.  `Typ` models the Go field `Type` (a Lean keyword); `Color` is the
parsed RGB component list. -/
structure ImageOptions where
  Width : Int := 0
  Height : Int := 0
  AreaWidth : Int := 0
  AreaHeight : Int := 0
  Top : Int := 0
  Left : Int := 0
  Quality : Int := 0
  Compression : Int := 0
  Rotate : Int := 0
  Margin : Int := 0
  DPI : Int := 0
  TextWidth : Int := 0
  Factor : Rat := 0
  Opacity : Rat := 0
  Force : Bool := false
  Embed : Bool := false
  NoCrop : Bool := false
  NoReplicate : Bool := false
  Flip : Bool := false
  Flop : Bool := false
  Text : String := ""
  Font : String := ""
  Typ : String := ""
  Color : List Nat := []
  Extend : String := ""
  Background : String := ""
  Colorspace : String := ""
  Gravity : String := ""
deriving DecidableEq, Repr

/-- The value recovered from a Go panic, as discriminated by the type
switch inside `Process`: an error value, a plain string, or any other
value. -/
inductive Recovered where
  | errValue (e : GoError)
  | strValue (s : String)
  | otherValue
deriving DecidableEq, Repr

/-- The possible outcomes of the native `bimg.Resize` call: a result
buffer, a returned error, or an abnormal termination (panic) carrying a
recovered value. -/
inductive ResizeOutcome where
  | success (buf : String)
  | failure (e : GoError)
  | abnormal (v : Recovered)
deriving DecidableEq, Repr

/-- The engine-reported image dimensions (`bimg.ImageSize`). -/
structure ImageSize where
  Width : Int := 0
  Height : Int := 0
deriving DecidableEq, Repr

/-- The engine-reported metadata record (`bimg.ImageMetadata`), restricted
to the fields `Info` reads.  `Typ` models the Go field `Type`. -/
structure ImageMetadata where
  Size : ImageSize := {}
  Typ : String := ""
  Space : String := ""
  Alpha : Bool := false
  Profile : Bool := false
  Channels : Int := 0
  Orientation : Int := 0
deriving DecidableEq, Repr

/-- The native engine as consumed by this layer: `bimg.Resize`,
`bimg.Metadata` and `bimg.DetermineImageType`. -/
structure Bimg where
  Resize : String → EngineOptions → ResizeOutcome
  Metadata : String → Except GoError ImageMetadata
  DetermineImageType : String → BimgImageType

/-- `ImageInfo` represents image details and additional metadata
(`image.go`).  `Typ` models the Go field `Type`. -/
structure ImageInfo where
  Width : Int
  Height : Int
  Typ : String
  Space : String
  Alpha : Bool
  Profile : Bool
  Channels : Int
  Orientation : Int
deriving DecidableEq, Repr

/-- Modelled from the spec: the option mapper `BimgOptions` (defined
outside `image.go`): a pure field-for-field copy of dimensions, quality,
compression, rotate, flip, flop, force, extend, background, colorspace
and gravity, plus the requested output type resolved through
`ImageType`. -/
def BimgOptions (o : ImageOptions) : EngineOptions :=
  { Width := o.Width
    Height := o.Height
    Quality := o.Quality
    Compression := o.Compression
    Rotate := o.Rotate
    Flip := o.Flip
    Flop := o.Flop
    Force := o.Force
    Extend := o.Extend
    Background := o.Background
    Colorspace := o.Colorspace
    Gravity := o.Gravity
    Typ := ImageType o.Typ }

/-- The type switch inside `Process`'s deferred recover: an error value is
used as-is, a string is wrapped by `errors.New`, and anything else becomes
the fixed "libvips internal error". -/
def recoverValue : Recovered → GoError
  | .errValue e => e
  | .strValue s => .message s
  | .otherValue => .message "libvips internal error"

/-- `Process` (`image.go`): invokes the native `bimg.Resize`; a panic is
recovered and converted by `recoverValue` with the output reset to
`Image\x7b\x7d`; a returned error is propagated with `Image\x7b\x7d`; on
success the output MIME type is resolved from the resulting buffer via
`DetermineImageType`. -/
def Process (bg : Bimg) (buf : String) (opts : EngineOptions) : Image × Option GoError :=
  match bg.Resize buf opts with
  | .abnormal v => (emptyImage, some (recoverValue v))
  | .failure e => (emptyImage, some e)
  | .success newBuf =>
      (⟨newBuf, GetImageMimeType (bg.DetermineImageType newBuf)⟩, none)

/-- The engine options built by `Resize` after validation: mapped
defaults, `Embed := true`, and `Crop := true` unless `NoCrop`. -/
def resizeOpts (o : ImageOptions) : EngineOptions :=
  let opts := { BimgOptions o with Embed := true }
  if o.NoCrop = false then { opts with Crop := true } else opts

/-- `Resize` (`image.go`): requires width or height nonzero, then
processes with `resizeOpts`. -/
def Resize (bg : Bimg) (buf : String) (o : ImageOptions) : Image × Option GoError :=
  if o.Width = 0 ∧ o.Height = 0 then
    (emptyImage, some (NewError "Missing required param: height or width" BadRequest))
  else
    Process bg buf (resizeOpts o)

/-- The engine options built by `Enlarge` after validation: mapped
defaults, `Enlarge := true`, and `Crop := true` unless `NoCrop`. -/
def enlargeOpts (o : ImageOptions) : EngineOptions :=
  let opts := { BimgOptions o with Enlarge := true }
  if o.NoCrop = false then { opts with Crop := true } else opts

/-- `Enlarge` (`image.go`): requires both width and height nonzero, then
processes with `enlargeOpts`. -/
def Enlarge (bg : Bimg) (buf : String) (o : ImageOptions) : Image × Option GoError :=
  if o.Width = 0 ∨ o.Height = 0 then
    (emptyImage, some (NewError "Missing required params: height, width" BadRequest))
  else
    Process bg buf (enlargeOpts o)

/-- The engine options built by `Extract` after validation: mapped
defaults plus the extraction rectangle. -/
def extractOpts (o : ImageOptions) : EngineOptions :=
  { BimgOptions o with
      Top := o.Top
      Left := o.Left
      AreaWidth := o.AreaWidth
      AreaHeight := o.AreaHeight }

/-- `Extract` (`image.go`): requires a nonzero extraction area, then
processes with `extractOpts`. -/
def Extract (bg : Bimg) (buf : String) (o : ImageOptions) : Image × Option GoError :=
  if o.AreaWidth = 0 ∨ o.AreaHeight = 0 then
    (emptyImage, some (NewError "Missing required params: areawidth or areaheight" BadRequest))
  else
    Process bg buf (extractOpts o)

/-- The engine options built by `Crop` after validation: mapped defaults
with `Crop := true`. -/
def cropOpts (o : ImageOptions) : EngineOptions :=
  { BimgOptions o with Crop := true }

/-- `Crop` (`image.go`): requires width or height nonzero, then processes
with `cropOpts`. -/
def Crop (bg : Bimg) (buf : String) (o : ImageOptions) : Image × Option GoError :=
  if o.Width = 0 ∧ o.Height = 0 then
    (emptyImage, some (NewError "Missing required param: height or width" BadRequest))
  else
    Process bg buf (cropOpts o)

/-- `Rotate` (`image.go`): requires a nonzero rotate value, then processes
with the mapped defaults (no overrides). -/
def Rotate (bg : Bimg) (buf : String) (o : ImageOptions) : Image × Option GoError :=
  if o.Rotate = 0 then
    (emptyImage, some (NewError "Missing required param: rotate" BadRequest))
  else
    Process bg buf (BimgOptions o)

/-- `Flip` (`image.go`): no validation; processes with `Flip := true`. -/
def Flip (bg : Bimg) (buf : String) (o : ImageOptions) : Image × Option GoError :=
  Process bg buf { BimgOptions o with Flip := true }

/-- `Flop` (`image.go`): no validation; processes with `Flop := true`. -/
def Flop (bg : Bimg) (buf : String) (o : ImageOptions) : Image × Option GoError :=
  Process bg buf { BimgOptions o with Flop := true }

/-- `Thumbnail` (`image.go`): requires width or height nonzero, then
processes with the mapped defaults (no overrides). -/
def Thumbnail (bg : Bimg) (buf : String) (o : ImageOptions) : Image × Option GoError :=
  if o.Width = 0 ∧ o.Height = 0 then
    (emptyImage, some (NewError "Missing required params: width or height" BadRequest))
  else
    Process bg buf (BimgOptions o)

/-- The engine options built by `Zoom` after validation: when `Top > 0`
or `Left > 0` the extraction rectangle is copied and `Crop := true` is set
unless `NoCrop`; in all cases `Zoom := Factor`. -/
def zoomOpts (o : ImageOptions) : EngineOptions :=
  let opts := BimgOptions o
  let opts :=
    if o.Top > 0 ∨ o.Left > 0 then
      let opts :=
        { opts with
            Top := o.Top
            Left := o.Left
            AreaWidth := o.AreaWidth
            AreaHeight := o.AreaHeight }
      if o.NoCrop = false then { opts with Crop := true } else opts
    else opts
  { opts with Zoom := o.Factor }

/-- `Zoom` (`image.go`): requires a nonzero factor; when `Top > 0` or
`Left > 0` it additionally requires a nonzero extraction area; then
processes with `zoomOpts`. -/
def Zoom (bg : Bimg) (buf : String) (o : ImageOptions) : Image × Option GoError :=
  if o.Factor = 0 then
    (emptyImage, some (NewError "Missing required param: factor" BadRequest))
  else if (o.Top > 0 ∨ o.Left > 0) ∧ o.AreaWidth = 0 ∧ o.AreaHeight = 0 then
    (emptyImage, some (NewError "Missing required params: areawidth, areaheight" BadRequest))
  else
    Process bg buf (zoomOpts o)

/-- `Convert` (`image.go`): requires a non-empty recognized target type,
then processes with the mapped defaults (type included by the mapper). -/
def Convert (bg : Bimg) (buf : String) (o : ImageOptions) : Image × Option GoError :=
  if o.Typ = "" then
    (emptyImage, some (NewError "Missing required param: type" BadRequest))
  else if ImageType o.Typ = .UNKNOWN then
    (emptyImage, some (NewError ("Invalid image type: " ++ o.Typ) BadRequest))
  else
    Process bg buf (BimgOptions o)

/-- The engine options built by `Watermark` after validation: mapped
defaults plus the watermark sub-structure; the background color is
assigned exactly when the color list has more than two components, from
its first three. -/
def watermarkOpts (o : ImageOptions) : EngineOptions :=
  { BimgOptions o with
      Watermark :=
        { DPI := o.DPI
          Text := o.Text
          Font := o.Font
          Margin := o.Margin
          Width := o.TextWidth
          Opacity := o.Opacity
          NoReplicate := o.NoReplicate
          Background :=
            if 2 < o.Color.length then
              some ⟨o.Color[0]!, o.Color[1]!, o.Color[2]!⟩
            else none } }

/-- `Watermark` (`image.go`): requires non-empty text, then processes with
`watermarkOpts`. -/
def Watermark (bg : Bimg) (buf : String) (o : ImageOptions) : Image × Option GoError :=
  if o.Text = "" then
    (emptyImage, some (NewError "Missing required param: text" BadRequest))
  else
    Process bg buf (watermarkOpts o)

/-- Lowercase hexadecimal digit, as used by Go's JSON string encoder. -/
def hexDigit (n : Nat) : Char :=
  if n < 10 then Char.ofNat (48 + n) else Char.ofNat (87 + n)

/-- Go `encoding/json` string-character encoding: quote, backslash and
control characters are escaped, and the HTML-sensitive characters are
escaped as unicode sequences by default. -/
def goEscapeChar (c : Char) : String :=
  if c = '"' then "\\\""
  else if c = '\\' then "\\\\"
  else if c = '\n' then "\\n"
  else if c = '\r' then "\\r"
  else if c = '\t' then "\\t"
  else if c = '<' then "\\u003c"
  else if c = '>' then "\\u003e"
  else if c = '&' then "\\u0026"
  else if c.toNat < 32 then
    "\\u00" ++ String.mk [hexDigit (c.toNat / 16), hexDigit (c.toNat % 16)]
  else String.mk [c]

/-- Go `encoding/json` string encoding: the escaped text in quotes. -/
def goQuote (s : String) : String :=
  "\"" ++ String.join (s.data.map goEscapeChar) ++ "\""

/-- Go `encoding/json` boolean encoding. -/
def goBool (b : Bool) : String :=
  if b then "true" else "false"

/-- Go `json.Marshal` applied to `ImageInfo`: fields in declaration
order, each keyed by its struct tag.  The `Width` field's tag in
`image.go` is the literal description string
`Width (in pixels) of image area to extract/resize.` (a valid Go JSON tag,
so it becomes the serialized key); the remaining tags are `height`,
`type`, `space`, `hasAlpha`, `hasProfile`, `channels`, `orientation`. -/
def jsonMarshalImageInfo (i : ImageInfo) : String :=
  "\x7b" ++ goQuote "Width (in pixels) of image area to extract/resize." ++ ":" ++ toString i.Width
  ++ "," ++ goQuote "height" ++ ":" ++ toString i.Height
  ++ "," ++ goQuote "type" ++ ":" ++ goQuote i.Typ
  ++ "," ++ goQuote "space" ++ ":" ++ goQuote i.Space
  ++ "," ++ goQuote "hasAlpha" ++ ":" ++ goBool i.Alpha
  ++ "," ++ goQuote "hasProfile" ++ ":" ++ goBool i.Profile
  ++ "," ++ goQuote "channels" ++ ":" ++ toString i.Channels
  ++ "," ++ goQuote "orientation" ++ ":" ++ toString i.Orientation
  ++ "\x7d"

/-- `Info` (`image.go`): starts from an `Image` whose MIME type is fixed
to `application/json`; on metadata failure returns that image (empty body)
with a bad-input error whose message concatenates the literal
`Cannot retrieve image medatata: %s` with the engine error text; on
success serializes the `ImageInfo` snapshot as the body. -/
def Info (bg : Bimg) (buf : String) (o : ImageOptions) : Image × Option GoError :=
  let image : Image := { Body := "", Mime := "application/json" }
  match bg.Metadata buf with
  | .error e =>
      (image, some (NewError ("Cannot retrieve image medatata: %s" ++ e.text) BadRequest))
  | .ok meta =>
      let info : ImageInfo :=
        { Width := meta.Size.Width
          Height := meta.Size.Height
          Typ := meta.Typ
          Space := meta.Space
          Alpha := meta.Alpha
          Profile := meta.Profile
          Channels := meta.Channels
          Orientation := meta.Orientation }
      ({ image with Body := jsonMarshalImageInfo info }, none)

/-- Sample metadata record used by concrete engine instances. -/
def metaSample : ImageMetadata :=
  { Size := { Width := 640, Height := 480 }
    Typ := "jpeg"
    Space := "srgb"
    Alpha := false
    Profile := false
    Channels := 3
    Orientation := 1 }

/-- A concrete engine whose resize call succeeds with the buffer `out`
and which reports JPEG output. -/
def okBimg : Bimg :=
  { Resize := fun _ _ => .success "out"
    Metadata := fun _ => .ok metaSample
    DetermineImageType := fun _ => .JPEG }

/-- A concrete engine whose resize call returns an error and whose
metadata call fails. -/
def failingBimg : Bimg :=
  { Resize := fun _ _ => .failure (.message "boom")
    Metadata := fun _ => .error (.message "bad meta")
    DetermineImageType := fun _ => .UNKNOWN }

/-- A concrete engine whose resize call terminates abnormally with a
non-error, non-string panic value. -/
def abnormalBimg : Bimg :=
  { Resize := fun _ _ => .abnormal .otherValue
    Metadata := fun _ => .ok metaSample
    DetermineImageType := fun _ => .JPEG }

/-- A concrete engine whose metadata call succeeds with `metaSample`. -/
def infoBimg : Bimg :=
  { Resize := fun _ _ => .failure (.message "x")
    Metadata := fun _ => .ok metaSample
    DetermineImageType := fun _ => .JPEG }

/-- Watermark options sample used by concrete witnesses. -/
def wmSample : ImageOptions :=
  { Text := "hi", Font := "sans bold 12", Margin := 5, DPI := 150, TextWidth := 200,
    Opacity := 1, NoReplicate := true, Color := [10, 20, 30] }

/-- Any time `Process` returns a non-nil error, the image it returns is
the empty image. -/
theorem process_error_empty (bg : Bimg) (buf : String) (opts : EngineOptions) :
    (Process bg buf opts).2 ≠ none → (Process bg buf opts).1 = emptyImage := by
  intro h
  unfold Process at h ⊢
  rcases hr : bg.Resize buf opts with b | e | v <;> simp_all

theorem resize_error_empty (bg : Bimg) (buf : String) (o : ImageOptions) :
    (Resize bg buf o).2 ≠ none → (Resize bg buf o).1 = emptyImage := by
  unfold Resize
  split
  · intro _; rfl
  · exact process_error_empty bg buf _

theorem enlarge_error_empty (bg : Bimg) (buf : String) (o : ImageOptions) :
    (Enlarge bg buf o).2 ≠ none → (Enlarge bg buf o).1 = emptyImage := by
  unfold Enlarge
  split
  · intro _; rfl
  · exact process_error_empty bg buf _

theorem extract_error_empty (bg : Bimg) (buf : String) (o : ImageOptions) :
    (Extract bg buf o).2 ≠ none → (Extract bg buf o).1 = emptyImage := by
  unfold Extract
  split
  · intro _; rfl
  · exact process_error_empty bg buf _

theorem crop_error_empty (bg : Bimg) (buf : String) (o : ImageOptions) :
    (Crop bg buf o).2 ≠ none → (Crop bg buf o).1 = emptyImage := by
  unfold Crop
  split
  · intro _; rfl
  · exact process_error_empty bg buf _

theorem rotate_error_empty (bg : Bimg) (buf : String) (o : ImageOptions) :
    (Rotate bg buf o).2 ≠ none → (Rotate bg buf o).1 = emptyImage := by
  unfold Rotate
  split
  · intro _; rfl
  · exact process_error_empty bg buf _

theorem flip_error_empty (bg : Bimg) (buf : String) (o : ImageOptions) :
    (Flip bg buf o).2 ≠ none → (Flip bg buf o).1 = emptyImage := by
  unfold Flip
  exact process_error_empty bg buf _

theorem flop_error_empty (bg : Bimg) (buf : String) (o : ImageOptions) :
    (Flop bg buf o).2 ≠ none → (Flop bg buf o).1 = emptyImage := by
  unfold Flop
  exact process_error_empty bg buf _

theorem thumbnail_error_empty (bg : Bimg) (buf : String) (o : ImageOptions) :
    (Thumbnail bg buf o).2 ≠ none → (Thumbnail bg buf o).1 = emptyImage := by
  unfold Thumbnail
  split
  · intro _; rfl
  · exact process_error_empty bg buf _

theorem zoom_error_empty (bg : Bimg) (buf : String) (o : ImageOptions) :
    (Zoom bg buf o).2 ≠ none → (Zoom bg buf o).1 = emptyImage := by
  unfold Zoom
  split
  · intro _; rfl
  · split
    · intro _; rfl
    · exact process_error_empty bg buf _

theorem convert_error_empty (bg : Bimg) (buf : String) (o : ImageOptions) :
    (Convert bg buf o).2 ≠ none → (Convert bg buf o).1 = emptyImage := by
  unfold Convert
  split
  · intro _; rfl
  · split
    · intro _; rfl
    · exact process_error_empty bg buf _

theorem watermark_error_empty (bg : Bimg) (buf : String) (o : ImageOptions) :
    (Watermark bg buf o).2 ≠ none → (Watermark bg buf o).1 = emptyImage := by
  unfold Watermark
  split
  · intro _; rfl
  · exact process_error_empty bg buf _

/-- `Info` on a metadata failure returns the pre-built image: empty body
with the fixed JSON MIME type (not the empty image). -/
theorem info_error_json (bg : Bimg) (buf : String) (o : ImageOptions) :
    (Info bg buf o).2 ≠ none → (Info bg buf o).1 = { Body := "", Mime := "application/json" } := by
  intro h
  unfold Info at h ⊢
  rcases hm : bg.Metadata buf with e | m <;> simp_all

/-- Claim C1: for every input buffer and engine options, if the native
engine call inside `Process` raises an abnormal termination (a panic
carrying an error value, a plain string, or any other value), `Process`
returns a non-nil error (the converted recovered value) and the empty
`Image`; the abnormal termination never propagates past the boundary,
since `Process` returns normally. -/
theorem c1_process_absorbs_abnormal_termination (bg : Bimg) (buf : String)
    (opts : EngineOptions) (v : Recovered) (h : bg.Resize buf opts = .abnormal v) :
    Process bg buf opts = (emptyImage, some (recoverValue v)) := by
  unfold Process
  rw [h]

theorem c1_witness :
    abnormalBimg.Resize "b" {} = .abnormal .otherValue ∧
    Process abnormalBimg "b" {} = (emptyImage, some (GoError.message "libvips internal error")) :=
  ⟨rfl, c1_process_absorbs_abnormal_termination abnormalBimg "b" {} .otherValue rfl⟩

/-- Claim C2 (counterexample): `Info` with a failing metadata query
returns a non-nil error together with an `Image` whose `Mime` is the
fixed JSON content type — not the empty `Image` the claim requires of
every operation in the catalog. -/
theorem c2_counterexample :
    (Info failingBimg "b" {}).2 ≠ none ∧
    (Info failingBimg "b" {}).1.Mime = "application/json" ∧
    (Info failingBimg "b" {}).1 ≠ emptyImage := by
  refine ⟨by decide, by decide, by decide⟩

/-- Claim C2 (amended): for every transformation operation in the
catalog, whenever the operation returns a non-nil error the `Image` it
returns is the empty `Image`; `Info` is the exception: on error it
returns an `Image` with empty `Body` but `Mime` fixed to
`application/json`. -/
theorem c2_amended_error_empty (bg : Bimg) (buf : String) (o : ImageOptions) :
    ((Resize bg buf o).2 ≠ none → (Resize bg buf o).1 = emptyImage) ∧
    ((Enlarge bg buf o).2 ≠ none → (Enlarge bg buf o).1 = emptyImage) ∧
    ((Extract bg buf o).2 ≠ none → (Extract bg buf o).1 = emptyImage) ∧
    ((Crop bg buf o).2 ≠ none → (Crop bg buf o).1 = emptyImage) ∧
    ((Rotate bg buf o).2 ≠ none → (Rotate bg buf o).1 = emptyImage) ∧
    ((Flip bg buf o).2 ≠ none → (Flip bg buf o).1 = emptyImage) ∧
    ((Flop bg buf o).2 ≠ none → (Flop bg buf o).1 = emptyImage) ∧
    ((Thumbnail bg buf o).2 ≠ none → (Thumbnail bg buf o).1 = emptyImage) ∧
    ((Zoom bg buf o).2 ≠ none → (Zoom bg buf o).1 = emptyImage) ∧
    ((Convert bg buf o).2 ≠ none → (Convert bg buf o).1 = emptyImage) ∧
    ((Watermark bg buf o).2 ≠ none → (Watermark bg buf o).1 = emptyImage) ∧
    ((Info bg buf o).2 ≠ none → (Info bg buf o).1 = { Body := "", Mime := "application/json" }) :=
  ⟨resize_error_empty bg buf o, enlarge_error_empty bg buf o, extract_error_empty bg buf o,
   crop_error_empty bg buf o, rotate_error_empty bg buf o, flip_error_empty bg buf o,
   flop_error_empty bg buf o, thumbnail_error_empty bg buf o, zoom_error_empty bg buf o,
   convert_error_empty bg buf o, watermark_error_empty bg buf o, info_error_json bg buf o⟩

theorem c2_witness :
    ((Resize failingBimg "b" { Width := 100 }).2 ≠ none ∧
      (Resize failingBimg "b" { Width := 100 }).1 = emptyImage) ∧
    ((Info failingBimg "b" {}).2 ≠ none ∧
      (Info failingBimg "b" {}).1 = { Body := "", Mime := "application/json" }) :=
  ⟨⟨by decide, (c2_amended_error_empty failingBimg "b" { Width := 100 }).1 (by decide)⟩,
   ⟨by decide, (c2_amended_error_empty failingBimg "b" {}).2.2.2.2.2.2.2.2.2.2.2 (by decide)⟩⟩

/-- Claim C3: whenever the native resize call succeeds, the `Image`
returned by `Process` has its `Mime` derived from the actual output
bytes — `GetImageMimeType` of `DetermineImageType` applied to the
returned `Body` — and its `Body` is exactly the buffer the engine
returned, with a nil error. -/
theorem c3_mime_from_output_bytes (bg : Bimg) (buf : String) (opts : EngineOptions)
    (newBuf : String) (h : bg.Resize buf opts = .success newBuf) :
    (Process bg buf opts).1.Mime
        = GetImageMimeType (bg.DetermineImageType (Process bg buf opts).1.Body) ∧
    (Process bg buf opts).1.Body = newBuf ∧
    (Process bg buf opts).2 = none := by
  unfold Process
  rw [h]
  exact ⟨rfl, rfl, rfl⟩

theorem c3_witness :
    okBimg.Resize "b" {} = .success "out" ∧
    (Process okBimg "b" {}).1.Mime
        = GetImageMimeType (okBimg.DetermineImageType (Process okBimg "b" {}).1.Body) ∧
    (Process okBimg "b" {}).1.Body = "out" :=
  ⟨rfl, (c3_mime_from_output_bytes okBimg "b" {} "out" rfl).1,
   (c3_mime_from_output_bytes okBimg "b" {} "out" rfl).2.1⟩

/-- Claim C4 (counterexample): with `Width := -1` and `Height := 0` the
claimed precondition `width>0 or height>0` fails, yet `Resize` does not
return a bad-input error — it invokes the engine and returns a nil
error, because the code only checks `width == 0 && height == 0`. -/
theorem c4_counterexample :
    ¬(({ Width := -1 } : ImageOptions).Width > 0 ∨ ({ Width := -1 } : ImageOptions).Height > 0) ∧
    (Resize okBimg "b" { Width := -1 }).2 = none := by
  refine ⟨by decide, by decide⟩

/-- Claim C4 (amended): `Resize`, `Crop` and `Thumbnail` return a
bad-input error without invoking the engine exactly when `width = 0` and
`height = 0`, while `Enlarge` returns a bad-input error without invoking
the engine exactly when `width = 0` or `height = 0`; for nonnegative
dimensions these conditions coincide with the claimed preconditions, and
`width = 0, height = 0` is always a bad-input error for all four. -/
theorem c4_amended_dimension_validation (bg : Bimg) (buf : String) (o : ImageOptions) :
    (o.Width = 0 ∧ o.Height = 0 →
      Resize bg buf o
          = (emptyImage, some (NewError "Missing required param: height or width" BadRequest)) ∧
      Crop bg buf o
          = (emptyImage, some (NewError "Missing required param: height or width" BadRequest)) ∧
      Thumbnail bg buf o
          = (emptyImage, some (NewError "Missing required params: width or height" BadRequest))) ∧
    (¬(o.Width = 0 ∧ o.Height = 0) →
      Resize bg buf o = Process bg buf (resizeOpts o) ∧
      Crop bg buf o = Process bg buf (cropOpts o) ∧
      Thumbnail bg buf o = Process bg buf (BimgOptions o)) ∧
    (o.Width = 0 ∨ o.Height = 0 →
      Enlarge bg buf o
          = (emptyImage, some (NewError "Missing required params: height, width" BadRequest))) ∧
    (¬(o.Width = 0 ∨ o.Height = 0) →
      Enlarge bg buf o = Process bg buf (enlargeOpts o)) := by
  refine ⟨fun h => ?_, fun h => ?_, fun h => ?_, fun h => ?_⟩ <;>
    simp_all [Resize, Crop, Thumbnail, Enlarge]

theorem c4_witness :
    Resize okBimg "b" ({} : ImageOptions)
        = (emptyImage, some (NewError "Missing required param: height or width" BadRequest)) ∧
    Enlarge okBimg "b" { Width := 5 }
        = (emptyImage, some (NewError "Missing required params: height, width" BadRequest)) ∧
    Enlarge okBimg "b" { Width := 5, Height := 7 }
        = Process okBimg "b" (enlargeOpts { Width := 5, Height := 7 }) ∧
    Resize okBimg "b" { Width := 5 } = Process okBimg "b" (resizeOpts { Width := 5 }) :=
  ⟨((c4_amended_dimension_validation okBimg "b" {}).1 (by decide)).1,
   (c4_amended_dimension_validation okBimg "b" { Width := 5 }).2.2.1 (by decide),
   (c4_amended_dimension_validation okBimg "b" { Width := 5, Height := 7 }).2.2.2 (by decide),
   ((c4_amended_dimension_validation okBimg "b" { Width := 5 }).2.1 (by decide)).1⟩

/-- Claim C5: `Zoom` with `factor = 0` is rejected regardless of the
other fields; with a nonzero factor, a positive top or left edge and an
all-zero extraction area it is rejected; and with `top = 0` and
`left = 0` a nonzero factor passes validation and the gateway is
invoked, with no extraction rectangle required. -/
theorem c5_zoom_validation (bg : Bimg) (buf : String) (o : ImageOptions) :
    (o.Factor = 0 →
      Zoom bg buf o = (emptyImage, some (NewError "Missing required param: factor" BadRequest))) ∧
    (o.Factor ≠ 0 → (o.Top > 0 ∨ o.Left > 0) → o.AreaWidth = 0 → o.AreaHeight = 0 →
      Zoom bg buf o
          = (emptyImage, some (NewError "Missing required params: areawidth, areaheight" BadRequest))) ∧
    (o.Factor ≠ 0 → o.Top = 0 → o.Left = 0 → Zoom bg buf o = Process bg buf (zoomOpts o)) := by
  refine ⟨fun h => ?_, fun h1 h2 h3 h4 => ?_, fun h1 h2 h3 => ?_⟩ <;>
    simp_all [Zoom]

theorem c5_witness :
    Zoom okBimg "b" ({ Factor := 0 } : ImageOptions)
        = (emptyImage, some (NewError "Missing required param: factor" BadRequest)) ∧
    Zoom okBimg "b" { Factor := 2, Top := 5 }
        = (emptyImage, some (NewError "Missing required params: areawidth, areaheight" BadRequest)) ∧
    Zoom okBimg "b" { Factor := 2 } = Process okBimg "b" (zoomOpts { Factor := 2 }) :=
  ⟨(c5_zoom_validation okBimg "b" { Factor := 0 }).1 rfl,
   (c5_zoom_validation okBimg "b" { Factor := 2, Top := 5 }).2.1 (by decide) (by decide) rfl rfl,
   (c5_zoom_validation okBimg "b" { Factor := 2 }).2.2 (by decide) rfl rfl⟩

/-- The missing-type message is never equal to an invalid-type message,
whatever the requested type string: the first characters differ. -/
theorem missing_ne_invalid (t : String) :
    "Missing required param: type" ≠ "Invalid image type: " ++ t := by
  intro h
  have h2 : "Missing required param: type".data = "Invalid image type: ".data ++ t.data := by
    rw [h, String.data_append]
  rw [show "Missing required param: type".data
        = 'M' :: "issing required param: type".data from rfl,
      show "Invalid image type: ".data = 'I' :: "nvalid image type: ".data from rfl,
      List.cons_append] at h2
  injection h2 with hc _
  exact absurd hc (by decide)

/-- Claim C6: `Convert` with an empty type returns the bad-input
missing-type error, `Convert` with a non-empty but unrecognized type
returns the distinct bad-input invalid-type error, and in both cases the
result is the same for every engine, so the gateway is never invoked. -/
theorem c6_convert_validation (bg : Bimg) (buf : String) (o : ImageOptions) :
    (o.Typ = "" →
      Convert bg buf o = (emptyImage, some (NewError "Missing required param: type" BadRequest))) ∧
    (o.Typ ≠ "" → ImageType o.Typ = .UNKNOWN →
      Convert bg buf o
          = (emptyImage, some (NewError ("Invalid image type: " ++ o.Typ) BadRequest))) ∧
    NewError "Missing required param: type" BadRequest
        ≠ NewError ("Invalid image type: " ++ o.Typ) BadRequest := by
  refine ⟨fun h => ?_, fun h1 h2 => ?_, fun h => ?_⟩
  · simp [Convert, h]
  · simp [Convert, h1, h2]
  · have h3 : "Missing required param: type" = "Invalid image type: " ++ o.Typ := by
      simpa [NewError, GoError.api.injEq] using h
    exact missing_ne_invalid o.Typ h3

theorem c6_witness :
    Convert okBimg "b" ({} : ImageOptions)
        = (emptyImage, some (NewError "Missing required param: type" BadRequest)) ∧
    Convert okBimg "b" { Typ := "bogus" }
        = (emptyImage, some (NewError ("Invalid image type: " ++ "bogus") BadRequest)) ∧
    NewError "Missing required param: type" BadRequest
        ≠ NewError ("Invalid image type: " ++ "bogus") BadRequest :=
  ⟨(c6_convert_validation okBimg "b" {}).1 rfl,
   (c6_convert_validation okBimg "b" { Typ := "bogus" }).2.1 (by decide) (by decide),
   (c6_convert_validation okBimg "b" ({ Typ := "bogus" } : ImageOptions)).2.2⟩

/-- Claim C7: `Watermark` with empty text is rejected regardless of the
other fields; otherwise it processes with engine options whose watermark
sub-structure carries the text, font, margin, dpi, width (from
textWidth), opacity and noReplicate fields, and whose background color
is assigned from the first three color components exactly when the color
list has length at least three, staying unset otherwise. -/
theorem c7_watermark_mapping (bg : Bimg) (buf : String) (o : ImageOptions) :
    (o.Text = "" →
      Watermark bg buf o = (emptyImage, some (NewError "Missing required param: text" BadRequest))) ∧
    (o.Text ≠ "" →
      Watermark bg buf o = Process bg buf (watermarkOpts o) ∧
      (watermarkOpts o).Watermark.Text = o.Text ∧
      (watermarkOpts o).Watermark.Font = o.Font ∧
      (watermarkOpts o).Watermark.Margin = o.Margin ∧
      (watermarkOpts o).Watermark.DPI = o.DPI ∧
      (watermarkOpts o).Watermark.Width = o.TextWidth ∧
      (watermarkOpts o).Watermark.Opacity = o.Opacity ∧
      (watermarkOpts o).Watermark.NoReplicate = o.NoReplicate ∧
      (3 ≤ o.Color.length →
        (watermarkOpts o).Watermark.Background
            = some ⟨o.Color[0]!, o.Color[1]!, o.Color[2]!⟩) ∧
      (o.Color.length < 3 → (watermarkOpts o).Watermark.Background = none)) := by
  constructor
  · intro h
    simp [Watermark, h]
  · intro h
    refine ⟨by simp [Watermark, h], rfl, rfl, rfl, rfl, rfl, rfl, rfl, fun h3 => ?_, fun h3 => ?_⟩
    · show (if 2 < o.Color.length then
          some (⟨o.Color[0]!, o.Color[1]!, o.Color[2]!⟩ : Color) else none) = _
      rw [if_pos (show 2 < o.Color.length by omega)]
    · show (if 2 < o.Color.length then
          some (⟨o.Color[0]!, o.Color[1]!, o.Color[2]!⟩ : Color) else none) = none
      rw [if_neg (show ¬2 < o.Color.length by omega)]

theorem c7_witness :
    Watermark okBimg "b" ({} : ImageOptions)
        = (emptyImage, some (NewError "Missing required param: text" BadRequest)) ∧
    Watermark okBimg "b" wmSample = Process okBimg "b" (watermarkOpts wmSample) ∧
    (watermarkOpts wmSample).Watermark.Text = "hi" ∧
    (watermarkOpts wmSample).Watermark.Background = some ⟨10, 20, 30⟩ ∧
    (watermarkOpts ({ Text := "hi" } : ImageOptions)).Watermark.Background = none :=
  ⟨(c7_watermark_mapping okBimg "b" {}).1 rfl,
   ((c7_watermark_mapping okBimg "b" wmSample).2 (by decide)).1,
   ((c7_watermark_mapping okBimg "b" wmSample).2 (by decide)).2.1,
   ((c7_watermark_mapping okBimg "b" wmSample).2 (by decide)).2.2.2.2.2.2.2.2.1 (by decide),
   ((c7_watermark_mapping okBimg "b" ({ Text := "hi" } : ImageOptions)).2
      (by decide)).2.2.2.2.2.2.2.2.2 (by decide)⟩

/-- Claim C8 (counterexample): `Zoom` with a nonzero factor, `top = 0`,
`left = 0` and `noCrop` not requested passes validation and invokes the
gateway, yet the engine options it passes have `Crop = false` — the
claimed crop-unless-noCrop policy does not hold for this call. -/
theorem c8_counterexample :
    ({ Factor := 2 } : ImageOptions).Factor ≠ 0 ∧
    ({ Factor := 2 } : ImageOptions).NoCrop = false ∧
    Zoom okBimg "b" { Factor := 2 } = Process okBimg "b" (zoomOpts { Factor := 2 }) ∧
    (zoomOpts { Factor := 2 }).Crop = false :=
  ⟨by decide, rfl, by decide, rfl⟩

/-- Claim C8 (amended): for validated calls, `Resize` passes engine
options with `Embed = true` and `Crop` set unless `noCrop`, and `Enlarge`
passes options with `Enlarge = true` and `Crop` set unless `noCrop`;
`Zoom` passes options with `Crop` set unless `noCrop` only when
`top > 0` or `left > 0` — otherwise its options keep `Crop = false`. -/
theorem c8_amended_crop_policy (bg : Bimg) (buf : String) (o : ImageOptions) :
    (¬(o.Width = 0 ∧ o.Height = 0) →
      Resize bg buf o = Process bg buf (resizeOpts o) ∧
      (resizeOpts o).Crop = !o.NoCrop ∧ (resizeOpts o).Embed = true) ∧
    (¬(o.Width = 0 ∨ o.Height = 0) →
      Enlarge bg buf o = Process bg buf (enlargeOpts o) ∧
      (enlargeOpts o).Crop = !o.NoCrop ∧ (enlargeOpts o).Enlarge = true) ∧
    (o.Factor ≠ 0 → ¬((o.Top > 0 ∨ o.Left > 0) ∧ o.AreaWidth = 0 ∧ o.AreaHeight = 0) →
      Zoom bg buf o = Process bg buf (zoomOpts o)) ∧
    ((o.Top > 0 ∨ o.Left > 0) → (zoomOpts o).Crop = !o.NoCrop) ∧
    (¬(o.Top > 0 ∨ o.Left > 0) → (zoomOpts o).Crop = false) := by
  refine ⟨fun h => ⟨by simp [Resize, h], ?_, ?_⟩, fun h => ⟨by simp [Enlarge, h], ?_, ?_⟩,
    fun h1 h2 => by simp [Zoom, h1, h2], fun h => ?_, fun h => ?_⟩
  · cases hnc : o.NoCrop <;> simp [resizeOpts, hnc, BimgOptions]
  · cases hnc : o.NoCrop <;> simp [resizeOpts, hnc, BimgOptions]
  · cases hnc : o.NoCrop <;> simp [enlargeOpts, hnc, BimgOptions]
  · cases hnc : o.NoCrop <;> simp [enlargeOpts, hnc, BimgOptions]
  · cases hnc : o.NoCrop <;> simp [zoomOpts, h, hnc, BimgOptions]
  · simp [zoomOpts, h, BimgOptions]

theorem c8_witness :
    Resize okBimg "b" { Width := 100 } = Process okBimg "b" (resizeOpts { Width := 100 }) ∧
    (resizeOpts ({ Width := 100 } : ImageOptions)).Crop = true ∧
    (resizeOpts ({ Width := 100 } : ImageOptions)).Embed = true ∧
    (enlargeOpts ({ Width := 3, Height := 4 } : ImageOptions)).Enlarge = true ∧
    (zoomOpts ({ Factor := 2, Top := 5, AreaWidth := 9 } : ImageOptions)).Crop = true ∧
    (zoomOpts ({ Factor := 2 } : ImageOptions)).Crop = false :=
  ⟨((c8_amended_crop_policy okBimg "b" { Width := 100 }).1 (by decide)).1,
   ((c8_amended_crop_policy okBimg "b" { Width := 100 }).1 (by decide)).2.1,
   ((c8_amended_crop_policy okBimg "b" { Width := 100 }).1 (by decide)).2.2,
   ((c8_amended_crop_policy okBimg "b" { Width := 3, Height := 4 }).2.1 (by decide)).2.2,
   (c8_amended_crop_policy okBimg "b"
      { Factor := 2, Top := 5, AreaWidth := 9 }).2.2.2.1 (by decide),
   (c8_amended_crop_policy okBimg "b" ({ Factor := 2 } : ImageOptions)).2.2.2.2 (by decide)⟩

set_option maxRecDepth 100000 in
/-- Claim C9 (code bug): on a successful metadata query `Info` returns
the fixed JSON MIME type and the serialized snapshot, but the `Width`
field is not serialized under the key `width`: its struct tag in
`image.go` is the copy-pasted description
`Width (in pixels) of image area to extract/resize.`, which is a valid
Go JSON tag and therefore becomes the serialized key.  Evaluating the
embedded `Info` on a concrete metadata record exhibits the emitted
document. -/
theorem c9_info_serialization :
    Info infoBimg "b" {} =
      ({ Body := "\x7b\"Width (in pixels) of image area to extract/resize.\":640,\"height\":480,\"type\":\"jpeg\",\"space\":\"srgb\",\"hasAlpha\":false,\"hasProfile\":false,\"channels\":3,\"orientation\":1\x7d",
         Mime := "application/json" }, none) := by
  decide

/-- Claim C10: `Rotate` returns a bad-input error exactly when the
rotate option is zero; every nonzero rotation value passes validation
unchanged — the mapped options carry the value as-is and the gateway is
invoked, with no multiple-of-90 check. -/
theorem c10_rotate_validation (bg : Bimg) (buf : String) (o : ImageOptions) :
    (o.Rotate = 0 →
      Rotate bg buf o = (emptyImage, some (NewError "Missing required param: rotate" BadRequest))) ∧
    (o.Rotate ≠ 0 →
      Rotate bg buf o = Process bg buf (BimgOptions o) ∧ (BimgOptions o).Rotate = o.Rotate) := by
  constructor
  · intro h
    simp [Rotate, h]
  · intro h
    exact ⟨by simp [Rotate, h], rfl⟩

theorem c10_witness :
    Rotate okBimg "b" ({} : ImageOptions)
        = (emptyImage, some (NewError "Missing required param: rotate" BadRequest)) ∧
    Rotate okBimg "b" { Rotate := 45 } = Process okBimg "b" (BimgOptions { Rotate := 45 }) ∧
    (BimgOptions ({ Rotate := 45 } : ImageOptions)).Rotate = 45 :=
  ⟨(c10_rotate_validation okBimg "b" {}).1 rfl,
   ((c10_rotate_validation okBimg "b" { Rotate := 45 }).2 (by decide)).1,
   ((c10_rotate_validation okBimg "b" { Rotate := 45 }).2 (by decide)).2⟩
